import Mathlib

/-!
Shallow embedding of the APDS9960 color-sensor library
(src/APDS9960_ColorSensor.cpp, include/APDS9960_ColorSensor.h).

Machine integers are modelled as Nat with explicit `% 2 ^ 32` where the
C code relies on uint32 intermediate arithmetic.  The float-valued HSV
pipeline is modelled over ℚ (the C code only performs field arithmetic
and order comparisons on the values, which ℚ carries exactly).
Sensor I/O is modelled by an oracle record giving each channel read's
outcome, and timing-driven sampling by the explicit list of poll
outcomes that occurred during the calibration window.
-/

/-- Enum StandardColor from the header (values UNKNOWN..BLACK). -/
inductive StandardColor where
  | UNKNOWN
  | RED
  | ORANGE
  | YELLOW
  | GREEN
  | CYAN
  | BLUE
  | PURPLE
  | MAGENTA
  | WHITE
  | BLACK
deriving DecidableEq, Repr

/-- Free function normalizeToRGB: `(uint32)raw * 255 / maxValue`, 0 on zero
ceiling, clamped to 255.  The uint32 intermediate is modelled by the explicit
`% 2 ^ 32`. -/
def normalizeToRGB (rawValue maxValue : Nat) : Nat :=
  if maxValue = 0 then 0
  else
    let normalized := rawValue * 255 % 2 ^ 32 / maxValue
    if normalized > 255 then 255 else normalized

/-- Tolerance clamping shared by isStandardColor and detectColor:
`if (t < 0) t = 0; if (t > 1) t = 1;`. -/
def clampTol (t : ℚ) : ℚ :=
  if t < 0 then 0 else if t > 1 then 1 else t

/-- Per-color predicate of `isStandardColor` (the pure classification staged
after the sensor read succeeded), one case per arm of the switch. -/
def isStandardColorHSV (c : StandardColor) (h s v tol : ℚ) : Prop :=
  let t := clampTol tol
  match c with
  | .UNKNOWN => False
  | .RED => (h < 20 ∨ 340 ≤ h) ∧ 1/2 - t ≤ s ∧ 3/10 - t ≤ v
  | .ORANGE => (20 ≤ h ∧ h < 50) ∧ 1/2 - t ≤ s ∧ 2/5 - t ≤ v
  | .YELLOW => (50 ≤ h ∧ h < 80) ∧ 1/2 - t ≤ s ∧ 1/2 - t ≤ v
  | .GREEN => (80 ≤ h ∧ h < 165) ∧ 2/5 - t ≤ s ∧ 3/10 - t ≤ v
  | .CYAN => (165 ≤ h ∧ h < 210) ∧ 2/5 - t ≤ s ∧ 2/5 - t ≤ v
  | .BLUE => (210 ≤ h ∧ h < 265) ∧ 2/5 - t ≤ s ∧ 3/10 - t ≤ v
  | .PURPLE => (265 ≤ h ∧ h < 295) ∧ 2/5 - t ≤ s ∧ 3/10 - t ≤ v
  | .MAGENTA => (295 ≤ h ∧ h < 340) ∧ 1/2 - t ≤ s ∧ 2/5 - t ≤ v
  | .WHITE => s ≤ 1/5 + t ∧ 7/10 - t ≤ v
  | .BLACK => v ≤ 1/5 + t

/-- Cascade of `detectColor` after a successful read: BLACK, then WHITE, then
the chromatic floor gate, then the hue bands in table order.  In the source
each band is `if hueCond { if satValCond return color }` with fall-through;
since the eight hue guards are pairwise disjoint for every h, a failed inner
guard makes every later hue guard false, so the fall-through chain is exactly
the conjunction chain written here. -/
def detectColorHSV (h s v tol : ℚ) : StandardColor :=
  let t := clampTol tol
  if v ≤ 1/5 + t then .BLACK
  else if s ≤ 1/5 + t ∧ 7/10 - t ≤ v then .WHITE
  else if s < 3/10 - t ∨ v < 1/4 - t then .UNKNOWN
  else if (h < 20 ∨ 340 ≤ h) ∧ 1/2 - t ≤ s ∧ 3/10 - t ≤ v then .RED
  else if (20 ≤ h ∧ h < 50) ∧ 1/2 - t ≤ s ∧ 2/5 - t ≤ v then .ORANGE
  else if (50 ≤ h ∧ h < 80) ∧ 1/2 - t ≤ s ∧ 1/2 - t ≤ v then .YELLOW
  else if (80 ≤ h ∧ h < 165) ∧ 2/5 - t ≤ s ∧ 3/10 - t ≤ v then .GREEN
  else if (165 ≤ h ∧ h < 210) ∧ 2/5 - t ≤ s ∧ 2/5 - t ≤ v then .CYAN
  else if (210 ≤ h ∧ h < 265) ∧ 2/5 - t ≤ s ∧ 3/10 - t ≤ v then .BLUE
  else if (265 ≤ h ∧ h < 295) ∧ 2/5 - t ≤ s ∧ 3/10 - t ≤ v then .PURPLE
  else if (295 ≤ h ∧ h < 340) ∧ 1/2 - t ≤ s ∧ 2/5 - t ≤ v then .MAGENTA
  else .UNKNOWN

/-- Hue-band membership per chromatic color, read off the hue guards of
`detectColor` (identical to the per-color hue tests of `isStandardColor`).
Achromatic labels have no hue band. -/
def inHueBand (c : StandardColor) (h : ℚ) : Prop :=
  match c with
  | .RED => h < 20 ∨ 340 ≤ h
  | .ORANGE => 20 ≤ h ∧ h < 50
  | .YELLOW => 50 ≤ h ∧ h < 80
  | .GREEN => 80 ≤ h ∧ h < 165
  | .CYAN => 165 ≤ h ∧ h < 210
  | .BLUE => 210 ≤ h ∧ h < 265
  | .PURPLE => 265 ≤ h ∧ h < 295
  | .MAGENTA => 295 ≤ h ∧ h < 340
  | _ => False

lemma clampTol_nonneg (t : ℚ) : 0 ≤ clampTol t := by
  unfold clampTol
  split_ifs <;> linarith

lemma clampTol_zero : clampTol 0 = 0 := by
  norm_num [clampTol]

/-- C1: normalizeToRGB returns 0 on zero ceiling, otherwise the clamped
floor of raw*255/ceiling computed without overflow, exact ceiling maps to
255, and the result never exceeds 255. -/
theorem normalizeToRGB_spec (raw ceiling : Nat) (hraw : raw < 2 ^ 16)
    (hceil : ceiling < 2 ^ 16) :
    normalizeToRGB raw 0 = 0 ∧
    (ceiling ≠ 0 → normalizeToRGB raw ceiling = min 255 (raw * 255 / ceiling)) ∧
    (ceiling ≠ 0 → normalizeToRGB ceiling ceiling = 255) ∧
    normalizeToRGB raw ceiling ≤ 255 := by
  have hmod : raw * 255 % 2 ^ 32 = raw * 255 := by
    apply Nat.mod_eq_of_lt
    calc raw * 255 ≤ 2 ^ 16 * 255 := by
          exact Nat.mul_le_mul_right 255 (Nat.le_of_lt hraw)
      _ < 2 ^ 32 := by norm_num
  have hmodc : ceiling * 255 % 2 ^ 32 = ceiling * 255 := by
    apply Nat.mod_eq_of_lt
    calc ceiling * 255 ≤ 2 ^ 16 * 255 := by
          exact Nat.mul_le_mul_right 255 (Nat.le_of_lt hceil)
      _ < 2 ^ 32 := by norm_num
  refine ⟨by simp [normalizeToRGB], ?_, ?_, ?_⟩
  · intro hc
    unfold normalizeToRGB
    rw [if_neg hc, hmod]
    rcases Nat.lt_or_ge 255 (raw * 255 / ceiling) with hgt | hle
    · rw [if_pos hgt, min_eq_left (Nat.le_of_lt hgt)]
    · rw [if_neg (Nat.not_lt.mpr hle), min_eq_right hle]
  · intro hc
    unfold normalizeToRGB
    rw [if_neg hc, hmodc]
    have : ceiling * 255 / ceiling = 255 := by
      rw [Nat.mul_comm]
      exact Nat.mul_div_cancel 255 (Nat.pos_of_ne_zero hc)
    rw [this]
    norm_num
  · unfold normalizeToRGB
    dsimp only
    split_ifs with h1 h2
    · exact Nat.zero_le 255
    · exact Nat.le_refl 255
    · exact Nat.not_lt.mp h2

/-- Closed instance of the normalizeToRGB contract at raw 800, ceiling 1000. -/
theorem normalizeToRGB_spec_witness :
    normalizeToRGB 800 0 = 0 ∧
    (1000 ≠ 0 → normalizeToRGB 800 1000 = min 255 (800 * 255 / 1000)) ∧
    (1000 ≠ 0 → normalizeToRGB 1000 1000 = 255) ∧
    normalizeToRGB 800 1000 ≤ 255 :=
  normalizeToRGB_spec 800 1000 (by norm_num) (by norm_num)

/-- C3: any sample with value at most 0.2 is classified Black by the detect
cascade, for every tolerance (clamping makes the effective tolerance
nonnegative, so the Black guard only widens). -/
theorem detectColorHSV_black (h s v t : ℚ) (hv : v ≤ 1/5) :
    detectColorHSV h s v t = StandardColor.BLACK := by
  unfold detectColorHSV
  dsimp only
  rw [if_pos (by have := clampTol_nonneg t; linarith)]

/-- Closed instance of the Black-priority property at hue 300, full
saturation, value 0.1, tolerance 0.4. -/
theorem detectColorHSV_black_witness :
    (1/10 : ℚ) ≤ 1/5 ∧ detectColorHSV 300 1 (1/10) (2/5) = StandardColor.BLACK :=
  ⟨by norm_num, detectColorHSV_black 300 1 (1/10) (2/5) (by norm_num)⟩

/-- C4: the two classifiers disagree: at hue 100, saturation 0.5, value 0.3,
tolerance 0.15, the per-color Green predicate holds but the cascade answers
Black (the Black guard absorbs the sample first), so it does not answer
Green. -/
theorem isStandardColor_detect_disagree :
    ∃ h s v t : ℚ, 0 ≤ t ∧ t ≤ 1 ∧
      isStandardColorHSV StandardColor.GREEN h s v t ∧
      detectColorHSV h s v t ≠ StandardColor.GREEN := by
  refine ⟨100, 1/2, 3/10, 3/20, by norm_num, by norm_num, ?_, ?_⟩
  · unfold isStandardColorHSV clampTol
    norm_num
  · have hb : detectColorHSV 100 (1/2) (3/10) (3/20) = StandardColor.BLACK := by
      unfold detectColorHSV clampTol
      norm_num
    rw [hb]
    decide

/-- C10: whenever the detect cascade answers a color other than Unknown, the
per-color predicate of isStandardColor accepts the same sample at the same
tolerance: every positive branch of the cascade carries exactly the
corresponding per-color conditions. -/
theorem detectColorHSV_sound (c : StandardColor) (h s v t : ℚ)
    (hd : detectColorHSV h s v t = c) (hc : c ≠ StandardColor.UNKNOWN) :
    isStandardColorHSV c h s v t := by
  unfold detectColorHSV at hd
  dsimp only at hd
  by_cases h1 : v ≤ 1/5 + clampTol t
  · rw [if_pos h1] at hd
    subst hd
    exact h1
  rw [if_neg h1] at hd
  by_cases h2 : s ≤ 1/5 + clampTol t ∧ 7/10 - clampTol t ≤ v
  · rw [if_pos h2] at hd
    subst hd
    exact h2
  rw [if_neg h2] at hd
  by_cases h3 : s < 3/10 - clampTol t ∨ v < 1/4 - clampTol t
  · rw [if_pos h3] at hd
    exact absurd hd.symm hc
  rw [if_neg h3] at hd
  by_cases h4 : (h < 20 ∨ 340 ≤ h) ∧ 1/2 - clampTol t ≤ s ∧ 3/10 - clampTol t ≤ v
  · rw [if_pos h4] at hd
    subst hd
    exact h4
  rw [if_neg h4] at hd
  by_cases h5 : (20 ≤ h ∧ h < 50) ∧ 1/2 - clampTol t ≤ s ∧ 2/5 - clampTol t ≤ v
  · rw [if_pos h5] at hd
    subst hd
    exact h5
  rw [if_neg h5] at hd
  by_cases h6 : (50 ≤ h ∧ h < 80) ∧ 1/2 - clampTol t ≤ s ∧ 1/2 - clampTol t ≤ v
  · rw [if_pos h6] at hd
    subst hd
    exact h6
  rw [if_neg h6] at hd
  by_cases h7 : (80 ≤ h ∧ h < 165) ∧ 2/5 - clampTol t ≤ s ∧ 3/10 - clampTol t ≤ v
  · rw [if_pos h7] at hd
    subst hd
    exact h7
  rw [if_neg h7] at hd
  by_cases h8 : (165 ≤ h ∧ h < 210) ∧ 2/5 - clampTol t ≤ s ∧ 2/5 - clampTol t ≤ v
  · rw [if_pos h8] at hd
    subst hd
    exact h8
  rw [if_neg h8] at hd
  by_cases h9 : (210 ≤ h ∧ h < 265) ∧ 2/5 - clampTol t ≤ s ∧ 3/10 - clampTol t ≤ v
  · rw [if_pos h9] at hd
    subst hd
    exact h9
  rw [if_neg h9] at hd
  by_cases h10 : (265 ≤ h ∧ h < 295) ∧ 2/5 - clampTol t ≤ s ∧ 3/10 - clampTol t ≤ v
  · rw [if_pos h10] at hd
    subst hd
    exact h10
  rw [if_neg h10] at hd
  by_cases h11 : (295 ≤ h ∧ h < 340) ∧ 1/2 - clampTol t ≤ s ∧ 2/5 - clampTol t ≤ v
  · rw [if_pos h11] at hd
    subst hd
    exact h11
  rw [if_neg h11] at hd
  exact absurd hd.symm hc

/-- Closed instance of the soundness of detect with respect to
isStandardColor, at a sample the cascade classifies as Cyan. -/
theorem detectColorHSV_sound_witness :
    detectColorHSV 199 (3/5) (3/5) (3/20) = StandardColor.CYAN ∧
    StandardColor.CYAN ≠ StandardColor.UNKNOWN ∧
    isStandardColorHSV StandardColor.CYAN 199 (3/5) (3/5) (3/20) := by
  have hd : detectColorHSV 199 (3/5) (3/5) (3/20) = StandardColor.CYAN := by
    unfold detectColorHSV clampTol
    norm_num
  exact ⟨hd, by decide, detectColorHSV_sound StandardColor.CYAN 199 (3/5) (3/5) (3/20) hd (by decide)⟩

lemma hueBand_existsUnique (h : ℚ) (hlo : 0 ≤ h) (hhi : h < 360) :
    ∃! c, inHueBand c h := by
  clear hlo hhi
  rcases lt_or_le h 20 with hb | hb
  · refine ⟨.RED, Or.inl hb, fun c' hc' => ?_⟩
    cases c' <;> simp only [inHueBand] at hc' <;>
      first
        | rfl
        | exact absurd hc'.1 (by linarith)
  rcases lt_or_le h 50 with hb2 | hb2
  · refine ⟨.ORANGE, ⟨hb, hb2⟩, fun c' hc' => ?_⟩
    cases c' <;> simp only [inHueBand] at hc' <;>
      first
        | rfl
        | (rcases hc' with a | a <;> linarith)
        | exact absurd hc'.1 (by linarith)
        | exact absurd hc'.2 (by linarith)
  rcases lt_or_le h 80 with hb3 | hb3
  · refine ⟨.YELLOW, ⟨hb2, hb3⟩, fun c' hc' => ?_⟩
    cases c' <;> simp only [inHueBand] at hc' <;>
      first
        | rfl
        | (rcases hc' with a | a <;> linarith)
        | exact absurd hc'.1 (by linarith)
        | exact absurd hc'.2 (by linarith)
  rcases lt_or_le h 165 with hb4 | hb4
  · refine ⟨.GREEN, ⟨hb3, hb4⟩, fun c' hc' => ?_⟩
    cases c' <;> simp only [inHueBand] at hc' <;>
      first
        | rfl
        | (rcases hc' with a | a <;> linarith)
        | exact absurd hc'.1 (by linarith)
        | exact absurd hc'.2 (by linarith)
  rcases lt_or_le h 210 with hb5 | hb5
  · refine ⟨.CYAN, ⟨hb4, hb5⟩, fun c' hc' => ?_⟩
    cases c' <;> simp only [inHueBand] at hc' <;>
      first
        | rfl
        | (rcases hc' with a | a <;> linarith)
        | exact absurd hc'.1 (by linarith)
        | exact absurd hc'.2 (by linarith)
  rcases lt_or_le h 265 with hb6 | hb6
  · refine ⟨.BLUE, ⟨hb5, hb6⟩, fun c' hc' => ?_⟩
    cases c' <;> simp only [inHueBand] at hc' <;>
      first
        | rfl
        | (rcases hc' with a | a <;> linarith)
        | exact absurd hc'.1 (by linarith)
        | exact absurd hc'.2 (by linarith)
  rcases lt_or_le h 295 with hb7 | hb7
  · refine ⟨.PURPLE, ⟨hb6, hb7⟩, fun c' hc' => ?_⟩
    cases c' <;> simp only [inHueBand] at hc' <;>
      first
        | rfl
        | (rcases hc' with a | a <;> linarith)
        | exact absurd hc'.1 (by linarith)
        | exact absurd hc'.2 (by linarith)
  rcases lt_or_le h 340 with hb8 | hb8
  · refine ⟨.MAGENTA, ⟨hb7, hb8⟩, fun c' hc' => ?_⟩
    cases c' <;> simp only [inHueBand] at hc' <;>
      first
        | rfl
        | (rcases hc' with a | a <;> linarith)
        | exact absurd hc'.1 (by linarith)
        | exact absurd hc'.2 (by linarith)
  refine ⟨.RED, Or.inr hb8, fun c' hc' => ?_⟩
  cases c' <;> simp only [inHueBand] at hc' <;>
    first
      | rfl
      | exact absurd hc'.1 (by linarith)
      | exact absurd hc'.2 (by linarith)

lemma detect_eq_of_band (h s v : ℚ) (hs : 1/2 ≤ s) (hv : 1/2 ≤ v)
    (c : StandardColor) (hc : inHueBand c h) : detectColorHSV h s v 0 = c := by
  unfold detectColorHSV
  rw [clampTol_zero]
  dsimp only
  have hnb : ¬ v ≤ 1/5 + 0 := by linarith
  have hnw : ¬ (s ≤ 1/5 + 0 ∧ 7/10 - 0 ≤ v) := fun hw => by linarith [hw.1]
  have hng : ¬ (s < 3/10 - 0 ∨ v < 1/4 - 0) := by push_neg; constructor <;> linarith
  rw [if_neg hnb, if_neg hnw, if_neg hng]
  cases c <;> simp only [inHueBand] at hc
  case RED =>
    rw [if_pos ⟨hc, by linarith, by linarith⟩]
  case ORANGE =>
    rw [if_neg (fun hr => by rcases hr.1 with a | a <;> linarith [hc.1, hc.2]),
        if_pos ⟨hc, by linarith, by linarith⟩]
  case YELLOW =>
    rw [if_neg (fun hr => by rcases hr.1 with a | a <;> linarith [hc.1, hc.2]),
        if_neg (fun hx => by linarith [hx.1.2, hc.1]),
        if_pos ⟨hc, by linarith, by linarith⟩]
  case GREEN =>
    rw [if_neg (fun hr => by rcases hr.1 with a | a <;> linarith [hc.1, hc.2]),
        if_neg (fun hx => by linarith [hx.1.2, hc.1]),
        if_neg (fun hx => by linarith [hx.1.2, hc.1]),
        if_pos ⟨hc, by linarith, by linarith⟩]
  case CYAN =>
    rw [if_neg (fun hr => by rcases hr.1 with a | a <;> linarith [hc.1, hc.2]),
        if_neg (fun hx => by linarith [hx.1.2, hc.1]),
        if_neg (fun hx => by linarith [hx.1.2, hc.1]),
        if_neg (fun hx => by linarith [hx.1.2, hc.1]),
        if_pos ⟨hc, by linarith, by linarith⟩]
  case BLUE =>
    rw [if_neg (fun hr => by rcases hr.1 with a | a <;> linarith [hc.1, hc.2]),
        if_neg (fun hx => by linarith [hx.1.2, hc.1]),
        if_neg (fun hx => by linarith [hx.1.2, hc.1]),
        if_neg (fun hx => by linarith [hx.1.2, hc.1]),
        if_neg (fun hx => by linarith [hx.1.2, hc.1]),
        if_pos ⟨hc, by linarith, by linarith⟩]
  case PURPLE =>
    rw [if_neg (fun hr => by rcases hr.1 with a | a <;> linarith [hc.1, hc.2]),
        if_neg (fun hx => by linarith [hx.1.2, hc.1]),
        if_neg (fun hx => by linarith [hx.1.2, hc.1]),
        if_neg (fun hx => by linarith [hx.1.2, hc.1]),
        if_neg (fun hx => by linarith [hx.1.2, hc.1]),
        if_neg (fun hx => by linarith [hx.1.2, hc.1]),
        if_pos ⟨hc, by linarith, by linarith⟩]
  case MAGENTA =>
    rw [if_neg (fun hr => by rcases hr.1 with a | a <;> linarith [hc.1, hc.2]),
        if_neg (fun hx => by linarith [hx.1.2, hc.1]),
        if_neg (fun hx => by linarith [hx.1.2, hc.1]),
        if_neg (fun hx => by linarith [hx.1.2, hc.1]),
        if_neg (fun hx => by linarith [hx.1.2, hc.1]),
        if_neg (fun hx => by linarith [hx.1.2, hc.1]),
        if_neg (fun hx => by linarith [hx.1.2, hc.1]),
        if_pos ⟨hc, by linarith, by linarith⟩]

/-- C2: for every hue in [0,360) exactly one chromatic hue band applies (they
are pairwise disjoint and cover the circle), and at tolerance 0 any sample
with saturation and value at least 0.5 is classified by the detect cascade
as exactly that band's color, never Unknown. -/
theorem detect_hueBands_partition (h s v : ℚ) (hlo : 0 ≤ h) (hhi : h < 360)
    (hs : 1/2 ≤ s) (hv : 1/2 ≤ v) :
    (∃! c, inHueBand c h) ∧
    ∀ c, inHueBand c h → c ≠ StandardColor.UNKNOWN ∧ detectColorHSV h s v 0 = c := by
  refine ⟨hueBand_existsUnique h hlo hhi, fun c hc => ⟨?_, detect_eq_of_band h s v hs hv c hc⟩⟩
  rintro rfl
  simp only [inHueBand] at hc

/-- Closed instance of the band-partition property at hue 100, saturation
0.6, value 0.9. -/
theorem detect_hueBands_partition_witness :
    (∃! c, inHueBand c 100) ∧
    ∀ c, inHueBand c 100 → c ≠ StandardColor.UNKNOWN ∧
      detectColorHSV 100 (3/5) (9/10) 0 = c :=
  detect_hueBands_partition 100 (3/5) (9/10) (by norm_num) (by norm_num)
    (by norm_num) (by norm_num)

/-- Class constant DEFAULT_SAMPLING_TIME (seconds). -/
def DEFAULT_SAMPLING_TIME : Int := 5

/-- Class constant MAX_SAMPLING_TIME (seconds). -/
def MAX_SAMPLING_TIME : Int := 10

/-- Class constant MIN_SAMPLES_PER_SECOND. -/
def MIN_SAMPLES_PER_SECOND : Int := 5

/-- Class constant MIN_THRESHOLD. -/
def MIN_THRESHOLD : Nat := 10

/-- Class constant SATURATION_THRESHOLD. -/
def SATURATION_THRESHOLD : Nat := 65000

/-- Class constant DEFAULT_MAX_VALUE. -/
def DEFAULT_MAX_VALUE : Nat := 1000

/-- Enum CalibrationStatus of the sensor class. -/
inductive CalibrationStatus where
  | NOT_CALIBRATED
  | CALIBRATED_OK
  | CALIBRATED_WITH_DEFAULTS
deriving DecidableEq, Repr

/-- Struct RawColor: the four 16-bit channels of one poll. -/
structure RawColor where
  ambient : Nat
  red : Nat
  green : Nat
  blue : Nat
deriving DecidableEq, Repr

/-- The mutable fields of ADPS9960_ColorSensor: calibration status and the
four per-channel calibration maxima. -/
structure SensorState where
  calibrationStatus : CalibrationStatus
  max_ambient : Nat
  max_red : Nat
  max_green : Nat
  max_blue : Nat
deriving DecidableEq, Repr

/-- Constructor ADPS9960_ColorSensor(): NOT_CALIBRATED, all maxima zero. -/
def initState : SensorState :=
  { calibrationStatus := .NOT_CALIBRATED
    max_ambient := 0
    max_red := 0
    max_green := 0
    max_blue := 0 }

/-- setDefaultCalibration: all four maxima become DEFAULT_MAX_VALUE; the
status field is not touched. -/
def setDefaultCalibration (st : SensorState) : SensorState :=
  { st with
    max_ambient := DEFAULT_MAX_VALUE
    max_red := DEFAULT_MAX_VALUE
    max_green := DEFAULT_MAX_VALUE
    max_blue := DEFAULT_MAX_VALUE }

/-- The sampling loop of performCalibration, with the timing-driven poll
sequence abstracted as the list of poll outcomes that occurred during the
window (none = some channel read failed, so the sample is skipped).  Maxima
are reset to zero first; each successful poll raises each channel maximum
independently and counts one sample. -/
def samplingPass (st : SensorState) (polls : List (Option RawColor)) :
    SensorState × Nat :=
  polls.foldl
    (fun acc poll =>
      match poll with
      | none => acc
      | some r =>
        ({ acc.1 with
            max_ambient := if r.ambient > acc.1.max_ambient then r.ambient else acc.1.max_ambient
            max_red := if r.red > acc.1.max_red then r.red else acc.1.max_red
            max_green := if r.green > acc.1.max_green then r.green else acc.1.max_green
            max_blue := if r.blue > acc.1.max_blue then r.blue else acc.1.max_blue },
         acc.2 + 1))
    ({ st with max_ambient := 0, max_red := 0, max_green := 0, max_blue := 0 }, 0)

/-- validateCalibrationData: the four quality criteria, in source order. -/
def validateCalibrationData (st : SensorState) (samples minSamples : Int) : Bool :=
  if samples < minSamples then false
  else if st.max_ambient < MIN_THRESHOLD then false
  else if st.max_red < MIN_THRESHOLD ∧ st.max_green < MIN_THRESHOLD ∧
          st.max_blue < MIN_THRESHOLD then false
  else if st.max_ambient > SATURATION_THRESHOLD ∨ st.max_red > SATURATION_THRESHOLD ∨
          st.max_green > SATURATION_THRESHOLD ∨ st.max_blue > SATURATION_THRESHOLD then false
  else if st.max_ambient = 0 ∨ (st.max_red = 0 ∧ st.max_green = 0 ∧ st.max_blue = 0) then false
  else true

/-- performCalibration: run the sampling pass, then validate against
minSamples = samplingTimeSeconds * MIN_SAMPLES_PER_SECOND. -/
def performCalibration (st : SensorState) (samplingTimeSeconds : Int)
    (polls : List (Option RawColor)) : SensorState × Bool :=
  let p := samplingPass st polls
  (p.1, validateCalibrationData p.1 (p.2 : Int) (samplingTimeSeconds * MIN_SAMPLES_PER_SECOND))

/-- The sampling-time validation at the top of calibrate: out-of-range
durations are replaced by the default. -/
def clampSamplingTime (t : Int) : Int :=
  if t < 1 ∨ t > MAX_SAMPLING_TIME then DEFAULT_SAMPLING_TIME else t

/-- calibrate: clamp the duration, run performCalibration, then set the
status (and on failure with useDefaultsOnFail, the default ceilings);
returns the success flag given to the caller. -/
def calibrate (st : SensorState) (samplingTimeSeconds : Int)
    (useDefaultsOnFail : Bool) (polls : List (Option RawColor)) :
    SensorState × Bool :=
  let secs := clampSamplingTime samplingTimeSeconds
  let p := performCalibration st secs polls
  if p.2 then ({ p.1 with calibrationStatus := .CALIBRATED_OK }, true)
  else if useDefaultsOnFail then
    ({ setDefaultCalibration p.1 with calibrationStatus := .CALIBRATED_WITH_DEFAULTS }, false)
  else
    ({ p.1 with calibrationStatus := .NOT_CALIBRATED }, false)

/-- The four sensor channels, used to record which reads were attempted. -/
inductive Channel where
  | ambient
  | red
  | green
  | blue
deriving DecidableEq, Repr

/-- Oracle for one readRawData call: the outcome each channel read would
produce if attempted (none = that read fails). -/
structure SensorReads where
  ambient : Option Nat
  red : Option Nat
  green : Option Nat
  blue : Option Nat
deriving DecidableEq, Repr

/-- readRawData: reads ambient, red, green, blue in that order, returning
failure at the first channel whose read fails; the second component records
which reads were attempted.  On failure no channel data is part of the
result. -/
def readRawData (s : SensorReads) : Option RawColor × List Channel :=
  match s.ambient with
  | none => (none, [Channel.ambient])
  | some a =>
    match s.red with
    | none => (none, [Channel.ambient, Channel.red])
    | some r =>
      match s.green with
      | none => (none, [Channel.ambient, Channel.red, Channel.green])
      | some g =>
        match s.blue with
        | none => (none, [Channel.ambient, Channel.red, Channel.green, Channel.blue])
        | some b =>
          (some { ambient := a, red := r, green := g, blue := b },
           [Channel.ambient, Channel.red, Channel.green, Channel.blue])

/-- readRGB: if still NOT_CALIBRATED, silently install the default
calibration and move to CALIBRATED_WITH_DEFAULTS; then read raw data and
normalize the three color channels by the current maxima. -/
def readRGB (st : SensorState) (rds : SensorReads) :
    SensorState × Option (Nat × Nat × Nat) :=
  let st' := if st.calibrationStatus = .NOT_CALIBRATED then
      { setDefaultCalibration st with calibrationStatus := .CALIBRATED_WITH_DEFAULTS }
    else st
  match (readRawData rds).1 with
  | none => (st', none)
  | some raw =>
    (st', some (normalizeToRGB raw.red st'.max_red,
                normalizeToRGB raw.green st'.max_green,
                normalizeToRGB raw.blue st'.max_blue))

/-- Pure RGB-to-HSV conversion performed by readColorHSV after a successful
readRGB, mirroring the source: channels scaled to [0,1], value = max,
near-gray short-circuit below the 1e-5 epsilon, saturation = delta/max, hue
by which channel is the max (checked in the order red, green, blue), scaled
by 60. -/
def rgbToHSV (r g b : Nat) : ℚ × ℚ × ℚ :=
  let rf : ℚ := (r : ℚ) / 255
  let gf : ℚ := (g : ℚ) / 255
  let bf : ℚ := (b : ℚ) / 255
  let maxc0 := if gf > rf then gf else rf
  let maxc := if bf > maxc0 then bf else maxc0
  let minc0 := if gf < rf then gf else rf
  let minc := if bf < minc0 then bf else minc0
  let delta := maxc - minc
  if delta < 1/100000 then (0, 0, maxc)
  else
    let s := delta / maxc
    let h0 :=
      if maxc = rf then
        (let x := (gf - bf) / delta
         if x < 0 then x + 6 else x)
      else if maxc = gf then (bf - rf) / delta + 2
      else (rf - gf) / delta + 4
    (h0 * 60, s, maxc)

/-- C7: readRawData attempts the channels in order ambient, red, green,
blue, stops at the first failing read (later channels are not attempted),
and on any failure returns no channel data at all. -/
theorem readRawData_shortCircuit (s : SensorReads) :
    (s.ambient = none → readRawData s = (none, [Channel.ambient])) ∧
    (∀ a, s.ambient = some a → s.red = none →
      readRawData s = (none, [Channel.ambient, Channel.red])) ∧
    (∀ a r, s.ambient = some a → s.red = some r → s.green = none →
      readRawData s = (none, [Channel.ambient, Channel.red, Channel.green])) ∧
    (∀ a r g, s.ambient = some a → s.red = some r → s.green = some g →
      s.blue = none →
      readRawData s =
        (none, [Channel.ambient, Channel.red, Channel.green, Channel.blue])) ∧
    (∀ a r g b, s.ambient = some a → s.red = some r → s.green = some g →
      s.blue = some b →
      readRawData s =
        (some { ambient := a, red := r, green := g, blue := b },
         [Channel.ambient, Channel.red, Channel.green, Channel.blue])) := by
  refine ⟨?_, ?_, ?_, ?_, ?_⟩
  · intro h1
    unfold readRawData
    rw [h1]
  · intro a h1 h2
    unfold readRawData
    rw [h1, h2]
  · intro a r h1 h2 h3
    unfold readRawData
    rw [h1, h2, h3]
  · intro a r g h1 h2 h3 h4
    unfold readRawData
    rw [h1, h2, h3, h4]
  · intro a r g b h1 h2 h3 h4
    unfold readRawData
    rw [h1, h2, h3, h4]

/-- Closed instance of the short-circuit property: the red read fails, so
green and blue are never attempted even though their reads would succeed. -/
theorem readRawData_shortCircuit_witness :
    readRawData { ambient := some 5, red := none, green := some 7, blue := some 9 } =
      (none, [Channel.ambient, Channel.red]) :=
  (readRawData_shortCircuit
    { ambient := some 5, red := none, green := some 7, blue := some 9 }).2.1 5 rfl rfl

/-- C9: when readRGB starts from NOT_CALIBRATED it installs the default
ceilings and moves to CALIBRATED_WITH_DEFAULTS before the sensor read, so
the transition happens whether or not the read succeeds, and any
normalization uses the freshly installed default ceilings. -/
theorem readRGB_autocalibrates (st : SensorState) (rds : SensorReads)
    (hst : st.calibrationStatus = .NOT_CALIBRATED) :
    (readRGB st rds).1 =
      { calibrationStatus := .CALIBRATED_WITH_DEFAULTS
        max_ambient := DEFAULT_MAX_VALUE
        max_red := DEFAULT_MAX_VALUE
        max_green := DEFAULT_MAX_VALUE
        max_blue := DEFAULT_MAX_VALUE } ∧
    (readRGB st rds).2 = ((readRawData rds).1).map
      (fun raw => (normalizeToRGB raw.red DEFAULT_MAX_VALUE,
                   normalizeToRGB raw.green DEFAULT_MAX_VALUE,
                   normalizeToRGB raw.blue DEFAULT_MAX_VALUE)) := by
  unfold readRGB
  rw [if_pos hst]
  cases hr : (readRawData rds).1 <;>
    simp [hr, setDefaultCalibration]

/-- Closed instance of the readRGB auto-calibration, with every channel
read failing: the state still moves to the default calibration. -/
theorem readRGB_autocalibrates_witness :
    (readRGB initState { ambient := none, red := none, green := none, blue := none }).1 =
      { calibrationStatus := .CALIBRATED_WITH_DEFAULTS
        max_ambient := DEFAULT_MAX_VALUE
        max_red := DEFAULT_MAX_VALUE
        max_green := DEFAULT_MAX_VALUE
        max_blue := DEFAULT_MAX_VALUE } ∧
    (readRGB initState { ambient := none, red := none, green := none, blue := none }).2 =
      ((readRawData { ambient := none, red := none, green := none, blue := none }).1).map
      (fun raw => (normalizeToRGB raw.red DEFAULT_MAX_VALUE,
                   normalizeToRGB raw.green DEFAULT_MAX_VALUE,
                   normalizeToRGB raw.blue DEFAULT_MAX_VALUE)) :=
  readRGB_autocalibrates initState
    { ambient := none, red := none, green := none, blue := none } rfl

/-- C5: whenever performCalibration reports failure, calibrate with
useDefaultsOnFail installs the default ceilings on all four channels, sets
CALIBRATED_WITH_DEFAULTS and still returns false; without it the state
becomes NOT_CALIBRATED and false is returned; and a run with fewer
successful polls than MIN_SAMPLES_PER_SECOND times the clamped duration is
such a failure, so without defaults it ends NOT_CALIBRATED. -/
theorem calibrate_failure_modes (st : SensorState) (secs : Int)
    (polls : List (Option RawColor)) :
    ((performCalibration st (clampSamplingTime secs) polls).2 = false →
      calibrate st secs true polls =
        ({ calibrationStatus := .CALIBRATED_WITH_DEFAULTS
           max_ambient := DEFAULT_MAX_VALUE
           max_red := DEFAULT_MAX_VALUE
           max_green := DEFAULT_MAX_VALUE
           max_blue := DEFAULT_MAX_VALUE }, false) ∧
      (calibrate st secs false polls).1.calibrationStatus = .NOT_CALIBRATED ∧
      (calibrate st secs false polls).2 = false) ∧
    (((samplingPass st polls).2 : Int) <
        clampSamplingTime secs * MIN_SAMPLES_PER_SECOND →
      (calibrate st secs false polls).1.calibrationStatus = .NOT_CALIBRATED) := by
  have hgen : ∀ hfail : (performCalibration st (clampSamplingTime secs) polls).2 = false,
      calibrate st secs true polls =
        ({ calibrationStatus := .CALIBRATED_WITH_DEFAULTS
           max_ambient := DEFAULT_MAX_VALUE
           max_red := DEFAULT_MAX_VALUE
           max_green := DEFAULT_MAX_VALUE
           max_blue := DEFAULT_MAX_VALUE }, false) ∧
      (calibrate st secs false polls).1.calibrationStatus = .NOT_CALIBRATED ∧
      (calibrate st secs false polls).2 = false := by
    intro hfail
    refine ⟨?_, ?_, ?_⟩
    · unfold calibrate
      dsimp only
      rw [hfail]
      simp [setDefaultCalibration]
    · unfold calibrate
      dsimp only
      rw [hfail]
      simp
    · unfold calibrate
      dsimp only
      rw [hfail]
      simp
  refine ⟨hgen, fun hcount => ?_⟩
  have hfail : (performCalibration st (clampSamplingTime secs) polls).2 = false := by
    unfold performCalibration
    dsimp only
    unfold validateCalibrationData
    rw [if_pos hcount]
  exact (hgen hfail).2.1

/-- Closed instance of the calibration failure modes: a window with no
successful polls at duration 5. -/
theorem calibrate_failure_modes_witness :
    calibrate initState 5 true [] =
      ({ calibrationStatus := .CALIBRATED_WITH_DEFAULTS
         max_ambient := DEFAULT_MAX_VALUE
         max_red := DEFAULT_MAX_VALUE
         max_green := DEFAULT_MAX_VALUE
         max_blue := DEFAULT_MAX_VALUE }, false) ∧
    (calibrate initState 5 false []).1.calibrationStatus = .NOT_CALIBRATED :=
  ⟨((calibrate_failure_modes initState 5 []).1 (by decide)).1,
   (calibrate_failure_modes initState 5 []).2 (by decide)⟩

/-- The calibration-ceiling invariant claimed by the spec: a state still
marked NOT_CALIBRATED has all four ceilings degenerate (zero). -/
def ceilingsInv (st : SensorState) : Prop :=
  st.calibrationStatus = .NOT_CALIBRATED →
    st.max_ambient = 0 ∧ st.max_red = 0 ∧ st.max_green = 0 ∧ st.max_blue = 0

/-- C8 counterexample: the invariant holds in the constructor state but the
public operation setDefaultCalibration breaks it (it installs nonzero
ceilings without touching the NOT_CALIBRATED status), so not every public
operation preserves it. -/
theorem ceilingsInv_not_preserved :
    ceilingsInv initState ∧ ¬ ceilingsInv (setDefaultCalibration initState) := by
  constructor
  · intro _h
    exact ⟨rfl, rfl, rfl, rfl⟩
  · intro hinv
    have h := (hinv rfl).1
    simp [setDefaultCalibration, initState, DEFAULT_MAX_VALUE] at h

/-- C8 amended: the constructor establishes the invariant, and calibrate
with useDefaultsOnFail = true and readRGB always (re)establish it; the
claim fails only for setDefaultCalibration and for calibrate with
useDefaultsOnFail = false. -/
theorem ceilingsInv_partial (st : SensorState) (secs : Int)
    (polls : List (Option RawColor)) (rds : SensorReads) :
    ceilingsInv initState ∧
    ceilingsInv (calibrate st secs true polls).1 ∧
    ceilingsInv (readRGB st rds).1 := by
  refine ⟨fun _h => ⟨rfl, rfl, rfl, rfl⟩, ?_, ?_⟩
  · unfold calibrate
    dsimp only
    cases hp : (performCalibration st (clampSamplingTime secs) polls).2 <;>
      simp [hp, ceilingsInv]
  · unfold readRGB
    by_cases hst : st.calibrationStatus = .NOT_CALIBRATED
    · rw [if_pos hst]
      cases hr : (readRawData rds).1 <;> simp [hr, ceilingsInv]
    · rw [if_neg hst]
      cases hr : (readRawData rds).1 <;> simp [hr, ceilingsInv, hst]

/-- Closed instance of the amended ceiling invariant after a defaulted
calibration run with no successful polls. -/
theorem ceilingsInv_partial_witness :
    ceilingsInv initState ∧
    ceilingsInv (calibrate initState 5 true []).1 ∧
    ceilingsInv (readRGB initState
      { ambient := none, red := none, green := none, blue := none }).1 :=
  ceilingsInv_partial initState 5 []
    { ambient := none, red := none, green := none, blue := none }

/-- C6 counterexample: on the normalized RGB (204, 102, 25) produced by the
claimed raw reading and ceilings, the HSV conversion yields hue 4620/179,
about 25.8 degrees, which is not within 1 degree of the claimed 20.1. -/
theorem endToEnd_hue_not_twenty :
    (rgbToHSV 204 102 25).1 = 4620/179 ∧
    ¬ |(rgbToHSV 204 102 25).1 - 201/10| ≤ 1 := by
  constructor
  · norm_num [rgbToHSV]
  · norm_num [rgbToHSV]
    rw [abs_of_pos (by norm_num : (0:ℚ) < 10221/1790)]
    norm_num

/-- C6 amended: raw (ambient 500, red 800, green 400, blue 100) under
ceilings of 1000 per channel normalizes to RGB (204, 102, 25); its HSV is
hue 4620/179 (approximately 25.8 degrees, not 20.1), saturation 179/204
(approximately 0.877) and value exactly 0.8; and the Orange predicate of
isStandardColor at tolerance 0.15 accepts that HSV. -/
theorem endToEnd_orange :
    readRGB ⟨.CALIBRATED_OK, 1000, 1000, 1000, 1000⟩
      ⟨some 500, some 800, some 400, some 100⟩ =
      (⟨.CALIBRATED_OK, 1000, 1000, 1000, 1000⟩, some (204, 102, 25)) ∧
    rgbToHSV 204 102 25 = (4620/179, 179/204, 4/5) ∧
    |(4620/179 : ℚ) - 258/10| ≤ 1/20 ∧
    |(179/204 : ℚ) - 877/1000| ≤ 1/1000 ∧
    isStandardColorHSV StandardColor.ORANGE (4620/179) (179/204) (4/5) (15/100) := by
  refine ⟨by decide, by norm_num [rgbToHSV], ?_, ?_, ?_⟩
  · rw [show (4620/179 : ℚ) - 258/10 = 9/895 by norm_num,
        abs_of_pos (by norm_num : (0:ℚ) < 9/895)]
    norm_num
  · rw [show (179/204 : ℚ) - 877/1000 = 23/51000 by norm_num,
        abs_of_pos (by norm_num : (0:ℚ) < 23/51000)]
    norm_num
  · unfold isStandardColorHSV clampTol
    norm_num
